import Mathlib

/-!
Verification of the dt-ppt-builder document-assembly core.

Shallow embedding of the repository's Python modules:
  * `excel_parser.py`  — status normalisation, sheet parsing, domain grouping
  * `helpers.py`       — coverage table computation, image helper
  * `builder.py`       — template sanitisation, layout-role resolution
  * `generic_slides.py`— slide-spec renderers, dispatcher, render loop

Machine-level details that no claim depends on (absolute inch coordinates,
font sizes, RGB colours) are elided; conditionals, text content, shape
structure and control flow are translated faithfully from the source.
-/

namespace DtPpt

/-! ## Python string primitives

`str.strip`, `str.lower` and the substring operator `in`, modelled on the
character list of a `String` (the inputs in this code base are ASCII apart
from the three marker glyphs, which are single characters). -/

/-- `sub` occurs at the head of `l` (Python `l.startswith(sub)` on char lists). -/
def leadsWith : List Char → List Char → Bool
  | [], _ => true
  | _ :: _, [] => false
  | c :: cs, d :: ds => c = d && leadsWith cs ds

/-- `sub` occurs somewhere in `l` (Python `sub in l`). -/
def hasSubList (l : List Char) (sub : List Char) : Bool :=
  match l with
  | [] => sub.isEmpty
  | _ :: t => leadsWith sub l || hasSubList t sub

/-- Python `sub in s` for strings. -/
def hasSub (s sub : String) : Bool := hasSubList s.data sub.data

/-- Python `str.strip()`: drop whitespace from both ends. -/
def pyStrip (s : String) : String :=
  ⟨((s.data.dropWhile Char.isWhitespace).reverse.dropWhile
      Char.isWhitespace).reverse⟩

/-- Python `str.lower()` (ASCII case fold, matching the inputs used here). -/
def pyLower (s : String) : String := ⟨s.data.map Char.toLower⟩

/-! ## `excel_parser._normalise_status` -/

/-- `_normalise_status` from `excel_parser.py`: ensure status values include
the standard emoji markers, by keyword containment on the lower-cased,
stripped text. -/
def normaliseStatus (val : String) : String :=
  let v := pyStrip val
  let lo := pyLower v
  if hasSub lo "now" || hasSub lo "available" || hasSub lo "yes" then
    if hasSub v "✅" then v else "✅ " ++ v
  else if hasSub lo "partial" then
    if hasSub v "⚡" then v else "⚡ " ++ v
  else if hasSub lo "roadmap" || hasSub lo "planned" || hasSub lo "future" then
    if hasSub v "🗺" then v else "🗺 " ++ v
  else v

/-- The raw status contains no keyword of any of the three groups. -/
def noStatusKeyword (val : String) : Prop :=
  let lo := pyLower (pyStrip val)
  hasSub lo "now" = false ∧ hasSub lo "available" = false ∧
  hasSub lo "yes" = false ∧ hasSub lo "partial" = false ∧
  hasSub lo "roadmap" = false ∧ hasSub lo "planned" = false ∧
  hasSub lo "future" = false

instance (val : String) : Decidable (noStatusKeyword val) := by
  unfold noStatusKeyword; exact inferInstance

/-! ## `excel_parser._match_col` and `_parse_sheet`

A worksheet is modelled as its `iter_rows(values_only=True)` matrix: a list
of rows, each row a list of cells, a cell being `none` (empty) or a string
(openpyxl values are stringified by the source before use). -/

abbrev Cell := Option String

abbrev Row := List Cell

abbrev Sheet := List Row

/-- `_ALIASES` from `excel_parser.py`. -/
def aliasTable : List (String × List String) :=
  [("requirement", ["requirement", "req", "requirement name", "name", "capability"]),
   ("description", ["description", "desc", "detail", "details", "notes", "note"]),
   ("status",      ["status", "coverage", "availability", "state", "response"]),
   ("signal",      ["signal", "signal type", "telemetry", "data type", "type"]),
   ("domain",      ["domain", "domain name", "category", "group", "area"])]

/-- `_match_col`: map a raw column header to a canonical key, or `none`. -/
def matchCol (header : String) : Option String :=
  let h := pyLower (pyStrip header)
  (aliasTable.find? fun p => p.2.contains h).map Prod.fst

/-- One scan of a candidate header row: canonical key → column index.
Python builds `mapping[key] = c` left to right, so a later column with the
same key overwrites an earlier one; the association list keeps the last
binding for each key. -/
def headerMapping (row : Row) : List (String × Nat) :=
  (row.enum.foldl
    (fun acc p =>
      match p.2 with
      | none => acc
      | some cellVal =>
        match matchCol cellVal with
        | none => acc
        | some key => (acc.filter fun q => q.1 ≠ key) ++ [(key, p.1)])
    [])

/-- A parsed requirement record (`r` dict of `_parse_sheet`); `domainVal`
models the optional `_domain` key. -/
structure Req where
  requirement : String
  description : String
  status : String
  signal : String
  domainVal : Option String := none
deriving DecidableEq, Repr

/-- Look a canonical key up in the header mapping and fetch that cell of a
row (`row[col_map[key]]`; rows are padded with `none` past their end as
openpyxl pads short rows). -/
def cellFor (colMap : List (String × Nat)) (row : Row) (key : String) :
    Option String :=
  match colMap.lookup key with
  | none => none
  | some c => (row.getD c none)

/-- Truthiness of an optional cell (Python `if row[c]`): present and
non-empty. -/
def cellTruthy : Option String → Bool
  | none => false
  | some s => s ≠ ""

/-- Build one requirement record from a data row, `none` when the row is
skipped (`requirement` cell missing, empty, or whitespace-only). -/
def rowToReq (colMap : List (String × Nat)) (row : Row) : Option Req :=
  let reqName := if colMap.lookup "requirement" = none then none
                 else cellFor colMap row "requirement"
  match reqName with
  | none => none
  | some s =>
    if pyStrip s = "" then none
    else
      some
        { requirement := pyStrip s
          description :=
            match cellFor colMap row "description" with
            | some d => if d ≠ "" then pyStrip d else ""
            | none => ""
          status :=
            match cellFor colMap row "status" with
            | some st => if st ≠ "" then normaliseStatus (pyStrip st) else ""
            | none => ""
          signal :=
            match cellFor colMap row "signal" with
            | some sg => if sg ≠ "" then pyStrip sg else ""
            | none => ""
          domainVal :=
            match cellFor colMap row "domain" with
            | some d => if d ≠ "" then some (pyStrip d) else none
            | none => none }

/-- Find the header row: index of the first row whose mapping recognises at
least two columns, together with that mapping. -/
def findHeader : Sheet → Option (Nat × List (String × Nat))
  | [] => none
  | row :: rest =>
    let m := headerMapping row
    if 2 ≤ m.length then some (0, m)
    else (findHeader rest).map fun p => (p.1 + 1, p.2)

/-- `_parse_sheet`: requirement rows of one worksheet. -/
def parseSheet (ws : Sheet) : List Req :=
  match findHeader ws with
  | none => []
  | some (idx, colMap) => (ws.drop (idx + 1)).filterMap (rowToReq colMap)

/-! ## `excel_parser.parse_excel` -/

/-- A domain entry of the canonical requirements structure. -/
structure Domain where
  name : String
  description : String
  reqs : List Req
deriving DecidableEq, Repr

/-- A workbook: sheets in order, each with its name. -/
abbrev Workbook := List (String × Sheet)

/-- The metadata-sheet denylist (`skip` set in `parse_excel`). -/
def skipNames : List String :=
  ["summary", "overview", "metadata", "readme", "instructions", "cover"]

/-- Non-denylisted sheets whose parse produced rows, with their rows
(`all_reqs` in `parse_excel`). -/
def productiveSheets (wb : Workbook) : List (String × List Req) :=
  (wb.filter fun s => !skipNames.contains (pyLower (pyStrip s.1))).filterMap
    fun s =>
      let reqs := parseSheet s.2
      if reqs.isEmpty then none else some (s.1, reqs)

/-- `r.pop("_domain", "Uncategorized")`: the grouping key of a row. -/
def domKey (r : Req) : String := r.domainVal.getD "Uncategorized"

/-- The record after `pop`ping its `_domain` key. -/
def clearDom (r : Req) : Req := { r with domainVal := none }

/-- One step of the `OrderedDict` grouping loop:
`groups.setdefault(dom, []).append(r)`. -/
def addToGroup (groups : List (String × List Req)) (dom : String) (r : Req) :
    List (String × List Req) :=
  match groups with
  | [] => [(dom, [r])]
  | (d, rs) :: rest =>
    if d = dom then (d, rs ++ [r]) :: rest
    else (d, rs) :: addToGroup rest dom r

/-- The full grouping loop over the single productive sheet's rows. -/
def groupLoop : List Req → List (String × List Req) → List (String × List Req)
  | [], acc => acc
  | r :: rest, acc => groupLoop rest (addToGroup acc (domKey r) (clearDom r))

/-- Single-sheet grouped result: one domain per `OrderedDict` key. -/
def groupedDomains (reqs : List Req) : List Domain :=
  (groupLoop reqs []).map fun p =>
    ⟨p.1, toString p.2.length ++ " requirements", p.2⟩

/-- Multi-sheet result: each productive sheet becomes one domain named
`"Domain i of n · sheet"`, with `_domain` keys cleaned. -/
def multiDomains (allReqs : List (String × List Req)) : List Domain :=
  allReqs.enum.map fun p =>
    ⟨"Domain " ++ toString (p.1 + 1) ++ " of " ++ toString allReqs.length
       ++ " · " ++ p.2.1,
     toString p.2.2.length ++ " requirements",
     p.2.2.map clearDom⟩

/-- `parse_excel`: the canonical requirements structure of a workbook, or
the fatal extraction error when no sheet yields rows. -/
def parseExcel (wb : Workbook) : Except String (List Domain) :=
  match productiveSheets wb with
  | [] => .error "No valid requirement rows found"
  | (n, reqs) :: rest =>
    if rest.isEmpty && reqs.any (fun r => r.domainVal.isSome) then
      .ok (groupedDomains reqs)
    else
      .ok (multiDomains ((n, reqs) :: rest))

/-! ## `helpers.coverage_table`

The table's textual rows (`data_rows` in the source). Cell styling is
elided; the per-domain rows and the final TOTAL row are kept verbatim.
Python's `round` over the float quotient is modelled as round-half-to-even
over the exact rational, and the division raises `ZeroDivisionError` when
the summed total is zero, modelled by the error branch. -/

/-- Per-domain counts handed to `coverage_table`
(`{name, total, now, partial, roadmap}` dicts built by `_domain_summary`). -/
structure DomSummary where
  name : String
  total : Nat
  nowCnt : Nat
  partialCnt : Nat
  roadmapCnt : Nat
deriving DecidableEq, Repr

/-- Python `round((num/den)*100)`-style rounding: nearest integer to
`num / den`, ties to even. Caller guards `den ≠ 0`. -/
def pyRoundHalfEven (num den : Nat) : Nat :=
  let q := num / den
  let r := num % den
  if 2 * r < den then q
  else if den < 2 * r then q + 1
  else if q % 2 = 0 then q else q + 1

/-- `coverage_table`'s row computation: per-domain rows then the
auto-generated TOTAL row with percentage annotations. -/
def coverageRows (domains : List DomSummary) :
    Except String (List (List String)) :=
  let totTotal := (domains.map (·.total)).sum
  let totNow := (domains.map (·.nowCnt)).sum
  let totPartial := (domains.map (·.partialCnt)).sum
  let totRoadmap := (domains.map (·.roadmapCnt)).sum
  let dataRows := domains.map fun d =>
    [d.name, toString d.total, toString d.nowCnt,
     toString d.partialCnt, toString d.roadmapCnt]
  if totTotal = 0 then .error "ZeroDivisionError"
  else
    .ok (dataRows ++
      [["TOTAL", toString totTotal,
        toString totNow ++ " ("
          ++ toString (pyRoundHalfEven (totNow * 100) totTotal) ++ "%)",
        toString totPartial ++ " ("
          ++ toString (pyRoundHalfEven (totPartial * 100) totTotal) ++ "%)",
        toString totRoadmap ++ " ("
          ++ toString (pyRoundHalfEven (totRoadmap * 100) totTotal) ++ "%)"]])

/-! ## `builder._load_template_clean`

The in-memory presentation file: the ordered slide-id list (each entry with
its optional `r:id` relationship attribute), the document part's
relationship-id table, and the layout parts. -/

structure SlideEntry where
  rId : Option String
deriving DecidableEq, Repr

structure PptxFile where
  sldIdLst : List SlideEntry
  rels : List String
  layouts : List Nat
deriving DecidableEq, Repr

/-- `prs.part.drop_rel(rId)`: remove the relationship, raising when it is
missing or already removed. -/
def dropRel (p : PptxFile) (r : String) : Except String PptxFile :=
  if p.rels.contains r then .ok { p with rels := p.rels.erase r }
  else .error "KeyError"

/-- One iteration of the removal loop: try to drop the entry's relationship
(swallowing any exception), then remove the entry from the live list. -/
def cleanStep (p : PptxFile) (e : SlideEntry) : PptxFile :=
  let p1 :=
    match e.rId with
    | some r =>
      match dropRel p r with
      | .ok p' => p'
      | .error _ => p
    | none => p
  { p1 with sldIdLst := p1.sldIdLst.erase e }

/-- The removal loop over the up-front copy (`slide_id_list`) of the slide
list. -/
def cleanLoop : List SlideEntry → PptxFile → PptxFile
  | [], p => p
  | e :: es, p => cleanLoop es (cleanStep p e)

/-- `_load_template_clean` after the archive is opened: strip every slide,
then assert the slide list is empty (`"Slides not cleared!"`). -/
def loadTemplateClean (p : PptxFile) : Except String PptxFile :=
  let p' := cleanLoop p.sldIdLst p
  if p'.sldIdLst.isEmpty then .ok p'
  else .error "Slides not cleared!"

/-! ## `builder._layout_map`

Config override indices are arbitrary integers (YAML ints), so subscripting
carries Python list semantics: negative indices count from the back, and a
subscript outside `[-len, len)` raises `IndexError` (`none` here). -/

/-- Python list subscript `layouts[i]`. -/
def pyGet (l : List Nat) (i : Int) : Option Nat :=
  if 0 ≤ i then l[i.toNat]?
  else if 0 ≤ (l.length : Int) + i then l[((l.length : Int) + i).toNat]?
  else none

/-- The built-in role → index defaults. -/
def layoutDefaults : List (String × Int) :=
  [("title_center", 11), ("title_content", 2), ("two_img", 19)]

/-- Python `{**defaults, **overrides}` on association lists whose keys are
distinct (dict semantics): default keys keep their position, overridden
values win, new override keys follow in override order. -/
def mergeDict (base ovr : List (String × Int)) : List (String × Int) :=
  (base.map fun p =>
    match ovr.lookup p.1 with
    | some v => (p.1, v)
    | none => p) ++
  ovr.filter fun q => (base.lookup q.1).isNone

/-- The binding loop of `_layout_map`: an index satisfying
`idx < len(layouts)` picks `layouts[idx]`, otherwise `layouts[0]` is the
fallback (with a printed warning, elided); a failing subscript — possible
for negative indices below `-len` — propagates as `none`. -/
def layoutMapAux (layouts : List Nat) :
    List (String × Int) → Option (List (String × Nat))
  | [] => some []
  | p :: rest =>
    let l? := if p.2 < (layouts.length : Int) then pyGet layouts p.2
              else pyGet layouts 0
    match l?, layoutMapAux layouts rest with
    | some l, some m => some ((p.1, l) :: m)
    | _, _ => none

/-- `_layout_map`: resolve every role of the merged mapping. -/
def layoutMap (layouts : List Nat) (ovr : List (String × Int)) :
    Option (List (String × Nat)) :=
  layoutMapAux layouts (mergeDict layoutDefaults ovr)

/-! ## `generic_slides.py` — slide specs, shapes, renderers

A slide spec is a JSON-friendly dict; each field is optional
(`spec.get(key, default)` applies its default at the use site, exactly as in
the source). The file system visible to `os.path.exists` / `os.path.isfile`
is the list of existing paths. Geometry, font and colour arguments of the
drawing helpers are elided; shape kinds, text content and all conditionals
are kept. -/

abbrev Fs := List String

/-- An entry of a `comparison` spec's `items` list. -/
structure CompItem where
  label : Option String := none
  bullets : Option (List String) := none
deriving DecidableEq, Repr

/-- A `card_grid` card or a `value_props` prop (icon/title/description). -/
structure Card where
  icon : Option String := none
  title : Option String := none
  description : Option String := none
deriving DecidableEq, Repr

/-- A `split_panel` panel item: a bare string or a `{text: …}` dict. -/
inductive PanelItem
  | str (s : String)
  | obj (text : Option String)
deriving DecidableEq, Repr

/-- A slide-spec dict. -/
structure Spec where
  type : Option String := none
  title : Option String := none
  subtitle : Option String := none
  contact : Option String := none
  eyebrow : Option String := none
  bullets : Option (List String) := none
  columns : Option (List String) := none
  rows : Option (List (List String)) := none
  leftHeader : Option String := none
  leftBullets : Option (List String) := none
  rightHeader : Option String := none
  rightBullets : Option (List String) := none
  body : Option String := none
  imagePath : Option String := none
  caption : Option String := none
  items : Option (List CompItem) := none
  message : Option String := none
  brand : Option String := none
  headline : Option String := none
  subHeadline : Option String := none
  tagline : Option String := none
  footer : Option String := none
  cards : Option (List Card) := none
  imageCaption : Option String := none
  panelTitle : Option String := none
  panelItems : Option (List PanelItem) := none
  leftImage : Option String := none
  leftCaption : Option String := none
  rightImage : Option String := none
  rightCaption : Option String := none
  props : Option (List Card) := none
  subText : Option String := none
  ctaText : Option String := none
deriving DecidableEq, Repr

/-- A shape on a slide. -/
inductive Shape
  | tx (paras : List String)
  | pic (path : String)
  | tblShape (header : List String) (cells : List (List String))
  | rect
  | roundRect (text : String)
deriving DecidableEq, Repr

/-- A rendered slide: its layout (value of the `SL` dict at the chosen
role) plus placeholder writes and shapes, in source order. -/
structure Slide where
  layout : Nat
  phs : List (Nat × String) := []
  shapes : List Shape := []
deriving DecidableEq, Repr

/-- `set_ph`: record a placeholder write. -/
def setPh (sl : Slide) (idx : Nat) (text : String) : Slide :=
  { sl with phs := sl.phs ++ [(idx, text)] }

/-- `txb`: one-paragraph textbox. -/
def txbS (sl : Slide) (text : String) : Slide :=
  { sl with shapes := sl.shapes ++ [.tx [text]] }

/-- `para_block`: optional bold header paragraph then `▸`-prefixed bullet
lines (an empty header string models the falsy `hdr`). -/
def paraBlockS (sl : Slide) (lines : List String) (hdr : String) : Slide :=
  { sl with
    shapes := sl.shapes ++
      [.tx ((if hdr ≠ "" then [hdr] else []) ++
            lines.map fun l => "▸  " ++ l)] }

/-- `add_picture`. -/
def picS (sl : Slide) (path : String) : Slide :=
  { sl with shapes := sl.shapes ++ [.pic path] }

/-- `add_shape(MSO_SHAPE.RECTANGLE, …)`. -/
def rectS (sl : Slide) : Slide :=
  { sl with shapes := sl.shapes ++ [.rect] }

/-- `helpers.add_img`: embed the image if the file exists, silently skip
(warning only) when it does not. -/
def addImg (fs : Fs) (path : String) : Option Shape :=
  if path ≠ "" && fs.contains path then some (.pic path) else none

/-- A renderer: file system × layout dict × spec → the one slide it adds.
(Each source renderer calls `_new` exactly once, first thing; the append of
that slide to the presentation is factored into `renderSlide` below.) -/
abbrev Renderer := Fs → (String → Nat) → Spec → Slide

def render_title : Renderer := fun _fs SL spec =>
  let sl : Slide := { layout := SL "title_center" }
  let sl := setPh sl 0 (spec.title.getD "")
  let sl := setPh sl 1 (spec.subtitle.getD "")
  let contact := spec.contact.getD ""
  if contact ≠ "" then txbS sl contact else sl

def render_section : Renderer := fun _fs SL spec =>
  let sl : Slide := { layout := SL "title_center" }
  let sl := setPh sl 0 (spec.title.getD "")
  let sub := spec.subtitle.getD ""
  if sub ≠ "" then setPh sl 1 sub else sl

def render_bullets : Renderer := fun _fs SL spec =>
  let sl : Slide := { layout := SL "title_content" }
  let sl := setPh sl 0 (spec.title.getD "")
  let eyebrow := spec.eyebrow.getD ""
  let sl := if eyebrow ≠ "" then setPh sl 1 eyebrow else sl
  paraBlockS sl (spec.bullets.getD []) ""

def render_table : Renderer := fun _fs SL spec =>
  let sl : Slide := { layout := SL "title_content" }
  let sl := setPh sl 0 (spec.title.getD "")
  let eyebrow := spec.eyebrow.getD ""
  let sl := if eyebrow ≠ "" then setPh sl 1 eyebrow else sl
  let columns := spec.columns.getD []
  let rows := spec.rows.getD []
  if columns.isEmpty || rows.isEmpty then sl
  else
    { sl with
      shapes := sl.shapes ++
        [.tblShape columns (rows.map fun r => r.take columns.length)] }

def render_two_column : Renderer := fun _fs SL spec =>
  let sl : Slide := { layout := SL "title_content" }
  let sl := setPh sl 0 (spec.title.getD "")
  let eyebrow := spec.eyebrow.getD ""
  let sl := if eyebrow ≠ "" then setPh sl 1 eyebrow else sl
  let sl := paraBlockS sl (spec.leftBullets.getD []) (spec.leftHeader.getD "")
  paraBlockS sl (spec.rightBullets.getD []) (spec.rightHeader.getD "")

def render_text : Renderer := fun _fs SL spec =>
  let sl : Slide := { layout := SL "title_content" }
  let sl := setPh sl 0 (spec.title.getD "")
  let eyebrow := spec.eyebrow.getD ""
  let sl := if eyebrow ≠ "" then setPh sl 1 eyebrow else sl
  txbS sl (spec.body.getD "")

def render_image : Renderer := fun fs SL spec =>
  let sl : Slide := { layout := SL "title_content" }
  let sl := setPh sl 0 (spec.title.getD "")
  let imgPath := spec.imagePath.getD ""
  let caption := spec.caption.getD ""
  let sl := if imgPath ≠ "" && fs.contains imgPath then picS sl imgPath else sl
  if caption ≠ "" then txbS sl caption else sl

def render_comparison : Renderer := fun _fs SL spec =>
  let sl : Slide := { layout := SL "title_content" }
  let sl := setPh sl 0 (spec.title.getD "")
  (spec.items.getD []).foldl
    (fun sl it => paraBlockS sl (it.bullets.getD []) (it.label.getD "")) sl

def render_closing : Renderer := fun _fs SL spec =>
  let sl : Slide := { layout := SL "title_center" }
  let sl := setPh sl 0 (spec.message.getD "Thank you")
  let contact := spec.contact.getD ""
  if contact ≠ "" then txbS sl contact else sl

def render_hero : Renderer := fun _fs SL spec =>
  let sl : Slide := { layout := SL "title_center" }
  let sl := txbS sl (spec.brand.getD "dynatrace")
  let sl := txbS sl (spec.headline.getD "")
  let sub := spec.subHeadline.getD ""
  let sl := if sub ≠ "" then txbS sl sub else sl
  let tag := spec.tagline.getD ""
  let sl := if tag ≠ "" then txbS sl tag else sl
  let footer := spec.footer.getD ""
  if footer ≠ "" then txbS sl footer else sl

/-- `_card`: background rectangle, colour bar, optional icon, title,
description. -/
def cardShapes (sl : Slide) (icon title desc : String) : Slide :=
  let sl := rectS sl
  let sl := rectS sl
  let sl := if icon ≠ "" then txbS sl icon else sl
  let sl := txbS sl title
  txbS sl desc

def render_card_grid : Renderer := fun _fs SL spec =>
  let sl : Slide := { layout := SL "title_content" }
  let sl := setPh sl 0 (spec.title.getD "")
  let eyebrow := spec.eyebrow.getD ""
  let sl := if eyebrow ≠ "" then setPh sl 1 eyebrow else sl
  let sl := (spec.cards.getD []).foldl
    (fun sl c =>
      cardShapes sl (c.icon.getD "") (c.title.getD "") (c.description.getD ""))
    sl
  let footer := spec.footer.getD ""
  if footer ≠ "" then txbS sl footer else sl

def render_icon_bullets : Renderer := fun fs SL spec =>
  let sl : Slide := { layout := SL "title_content" }
  let eyebrow := spec.eyebrow.getD ""
  let sl := if eyebrow ≠ "" then setPh sl 1 eyebrow else sl
  let sl := setPh sl 0 (spec.title.getD "")
  let subtitle := spec.subtitle.getD ""
  let sl := if subtitle ≠ "" then txbS sl subtitle else sl
  let sl := (spec.bullets.getD []).foldl
    (fun sl b => txbS (txbS sl "✓") b) sl
  let imgPath := spec.imagePath.getD ""
  let hasImg := imgPath ≠ "" && fs.contains imgPath
  let sl :=
    if hasImg then
      let sl := picS sl imgPath
      let cap := spec.imageCaption.getD ""
      if cap ≠ "" then txbS sl cap else sl
    else sl
  let footer := spec.footer.getD ""
  if footer ≠ "" then txbS sl footer else sl

def render_split_panel : Renderer := fun _fs SL spec =>
  let sl : Slide := { layout := SL "title_content" }
  let eyebrow := spec.eyebrow.getD ""
  let sl := if eyebrow ≠ "" then setPh sl 1 eyebrow else sl
  let sl := setPh sl 0 (spec.title.getD "")
  let subtitle := spec.subtitle.getD ""
  let sl := if subtitle ≠ "" then txbS sl subtitle else sl
  let sl := (spec.bullets.getD []).foldl
    (fun sl b => txbS (txbS sl "✓") b) sl
  let sl := rectS sl
  let sl := rectS sl
  let panelTitle := spec.panelTitle.getD ""
  let sl := if panelTitle ≠ "" then txbS sl panelTitle else sl
  let sl := (spec.panelItems.getD []).foldl
    (fun sl item =>
      let text := match item with
        | .str s => s
        | .obj t => t.getD ""
      txbS (txbS sl "✓") text)
    sl
  let footer := spec.footer.getD ""
  if footer ≠ "" then txbS sl footer else sl

def render_two_image : Renderer := fun fs SL spec =>
  let sl : Slide := { layout := SL "title_content" }
  let eyebrow := spec.eyebrow.getD ""
  let sl := if eyebrow ≠ "" then setPh sl 1 eyebrow else sl
  let sl := setPh sl 0 (spec.title.getD "")
  let sideShapes := fun (sl : Slide) (img cap : String) =>
    let sl := if img ≠ "" && fs.contains img then picS sl img else sl
    if cap ≠ "" then txbS sl cap else sl
  let sl := sideShapes sl (spec.leftImage.getD "") (spec.leftCaption.getD "")
  let sl := sideShapes sl (spec.rightImage.getD "") (spec.rightCaption.getD "")
  let footer := spec.footer.getD ""
  if footer ≠ "" then txbS sl footer else sl

def render_value_props : Renderer := fun _fs SL spec =>
  let sl : Slide := { layout := SL "title_content" }
  let eyebrow := spec.eyebrow.getD ""
  let sl := if eyebrow ≠ "" then setPh sl 1 eyebrow else sl
  let sl := setPh sl 0 (spec.title.getD "")
  let subtitle := spec.subtitle.getD ""
  let sl := if subtitle ≠ "" then txbS sl subtitle else sl
  let sl := (spec.props.getD []).foldl
    (fun sl p =>
      txbS (txbS (txbS sl (p.icon.getD "●")) (p.title.getD ""))
        (p.description.getD ""))
    sl
  let footer := spec.footer.getD ""
  if footer ≠ "" then txbS sl footer else sl

def render_cta : Renderer := fun _fs SL spec =>
  let sl : Slide := { layout := SL "title_center" }
  let sl := txbS sl (spec.brand.getD "dynatrace")
  let sl := txbS sl (spec.headline.getD "")
  let sub := spec.subText.getD ""
  let sl := if sub ≠ "" then txbS sl sub else sl
  let cta := spec.ctaText.getD ""
  if cta ≠ "" then { sl with shapes := sl.shapes ++ [.roundRect cta] } else sl

/-- `_RENDERERS`: the dispatch table, in source order. -/
def _RENDERERS : List (String × Renderer) :=
  [("title",        render_title),
   ("section",      render_section),
   ("bullets",      render_bullets),
   ("table",        render_table),
   ("two_column",   render_two_column),
   ("text",         render_text),
   ("image",        render_image),
   ("comparison",   render_comparison),
   ("closing",      render_closing),
   ("hero",         render_hero),
   ("card_grid",    render_card_grid),
   ("icon_bullets", render_icon_bullets),
   ("split_panel",  render_split_panel),
   ("two_image",    render_two_image),
   ("value_props",  render_value_props),
   ("cta",          render_cta)]

/-- The presentation being built: its slide list. -/
structure Prs where
  slides : List Slide := []
deriving DecidableEq, Repr

/-- The `ValueError` raised on an unknown slide type, carrying the
offending value and the list of valid type tags (the data interpolated
into the source's message string). -/
inductive RenderErr
  | unknownType (offending : String) (valid : List String)
deriving DecidableEq, Repr

/-- `render_slide`: dispatch on `spec.get("type", "bullets")`; a recognized
type appends the rendered slide to the presentation and returns it, an
unknown type raises and leaves the presentation untouched. -/
def renderSlide (fs : Fs) (SL : String → Nat) (prs : Prs) (spec : Spec) :
    Prs × Except RenderErr Slide :=
  let slideType := spec.type.getD "bullets"
  match _RENDERERS.lookup slideType with
  | none => (prs, .error (.unknownType slideType (_RENDERERS.map Prod.fst)))
  | some f =>
    let sl := f fs SL spec
    ({ prs with slides := prs.slides ++ [sl] }, .ok sl)

/-- `render_all`: render the spec list in order, collecting the slides; the
first raise propagates, keeping the presentation state reached so far. -/
def renderAll (fs : Fs) (SL : String → Nat) (prs : Prs) :
    List Spec → Prs × Except RenderErr (List Slide)
  | [] => (prs, .ok [])
  | spec :: rest =>
    match renderSlide fs SL prs spec with
    | (prs', .ok sl) =>
      match renderAll fs SL prs' rest with
      | (prs'', .ok sls) => (prs'', .ok (sl :: sls))
      | (prs'', .error e) => (prs'', .error e)
    | (prs', .error e) => (prs', .error e)

/-- The slide a spec renders to under the dispatcher, when its type is
recognized. -/
def slideOf (fs : Fs) (SL : String → Nat) (spec : Spec) : Option Slide :=
  (_RENDERERS.lookup (spec.type.getD "bullets")).map fun f => f fs SL spec

/-- A type tag the dispatcher recognizes. -/
def validType (t : String) : Bool := (_RENDERERS.lookup t).isSome

/-- Distinct values of a list in order of first appearance (the key order
of the Python `OrderedDict` built by the grouping loop). -/
def firstSeen : List String → List String
  | [] => []
  | x :: xs => x :: firstSeen (xs.filter fun y => y ≠ x)
termination_by l => l.length
decreasing_by
  exact Nat.lt_succ_of_le (List.length_filter_le _ _)

/-! ### Concrete single-sheet workbook with a partially filled domain column
(used to settle the grouping claim). -/

def hdrRow : Row :=
  [some "Capability", some "Notes", some "State", some "Signal", some "Area"]

def rowWithDom : Row :=
  [some "R1", some "d1", some "Yes", some "TRACE", some "A"]

def rowNoDom : Row :=
  [some "R2", some "d2", some "Partial", some "LOG", none]

def wbMixed : Workbook := [("Sheet1", [hdrRow, rowWithDom, rowNoDom])]

def reqWithDom : Req :=
  { requirement := "R1", description := "d1", status := "✅ Yes",
    signal := "TRACE", domainVal := some "A" }

def reqNoDom : Req :=
  { requirement := "R2", description := "d2", status := "⚡ Partial",
    signal := "LOG", domainVal := none }

def reqsMixed : List Req := [reqWithDom, reqNoDom]

/-! ## Supporting lemmas -/

theorem cleanStep_sldIdLst (p : PptxFile) (e : SlideEntry) :
    (cleanStep p e).sldIdLst = p.sldIdLst.erase e := by
  unfold cleanStep dropRel
  cases e.rId with
  | none => rfl
  | some r =>
    by_cases h : r ∈ p.rels <;> simp [h]

theorem cleanStep_layouts (p : PptxFile) (e : SlideEntry) :
    (cleanStep p e).layouts = p.layouts := by
  unfold cleanStep dropRel
  cases e.rId with
  | none => rfl
  | some r =>
    by_cases h : r ∈ p.rels <;> simp [h]

theorem cleanLoop_sldIdLst (es : List SlideEntry) :
    ∀ p : PptxFile,
      (cleanLoop es p).sldIdLst = es.foldl (fun l e => l.erase e) p.sldIdLst := by
  induction es with
  | nil => intro p; rfl
  | cons e es ih =>
    intro p
    simp only [cleanLoop, List.foldl_cons, ih, cleanStep_sldIdLst]

theorem cleanLoop_layouts (es : List SlideEntry) :
    ∀ p : PptxFile, (cleanLoop es p).layouts = p.layouts := by
  induction es with
  | nil => intro p; rfl
  | cons e es ih =>
    intro p
    simp only [cleanLoop, ih, cleanStep_layouts]

theorem foldl_erase_self {α : Type} [DecidableEq α] (l : List α) :
    l.foldl (fun acc e => acc.erase e) l = [] := by
  induction l with
  | nil => rfl
  | cons e es ih =>
    simp only [List.foldl_cons, List.erase_cons_head]
    exact ih

theorem productiveSheets_eq_nil (wb : Workbook) :
    productiveSheets wb = [] ↔
      ∀ p ∈ wb, skipNames.contains (pyLower (pyStrip p.1)) = false →
        parseSheet p.2 = [] := by
  unfold productiveSheets
  rw [List.filterMap_eq_nil_iff]
  constructor
  · intro h p hp hskip
    have hmem : p ∈ wb.filter
        (fun s => !skipNames.contains (pyLower (pyStrip s.1))) :=
      List.mem_filter.mpr ⟨hp, by simpa using hskip⟩
    have := h p hmem
    by_contra hne
    rw [if_neg (by simpa [List.isEmpty_iff] using hne)] at this
    exact Option.some_ne_none _ this
  · intro h p hp
    obtain ⟨hmem, hskip⟩ := List.mem_filter.mp hp
    have := h p hmem (by simpa using hskip)
    simp [this]

/-! ## Claim theorems -/

/-- C3: for every loadable template, sanitization returns a presentation
with slide count exactly zero and the layout list unchanged; a missing or
already-removed slide relationship is tolerated (the statement holds for
every relationship table), and the non-empty-after-removal case is the
fatal `"Slides not cleared!"` branch, which is never silently skipped. -/
theorem template_sanitize_clears_slides (p : PptxFile) :
    ∃ q, loadTemplateClean p = Except.ok q ∧ q.sldIdLst = [] ∧
      q.layouts = p.layouts := by
  have hs : (cleanLoop p.sldIdLst p).sldIdLst = [] := by
    rw [cleanLoop_sldIdLst]; exact foldl_erase_self _
  refine ⟨cleanLoop p.sldIdLst p, ?_, hs, cleanLoop_layouts _ _⟩
  unfold loadTemplateClean
  simp [hs]

/-- C4 (code bug): on a domain list whose requirement total sums to zero,
the coverage-table computation divides by zero instead of reporting 0%. -/
theorem coverage_total_zero_divzero :
    coverageRows
        [{ name := "Empty", total := 0, nowCnt := 0,
           partialCnt := 0, roadmapCnt := 0 }] =
      Except.error "ZeroDivisionError" := rfl

/-- C5 (counterexample): the status "unknown" is not returned unchanged —
it contains the keyword "now" as a substring and gains the available
marker. Further refuting instances of the claim as stated: keyword-free
text is returned whitespace-stripped (not literally unchanged), and
keyword text that already carries the marker does not get it prepended
again. -/
theorem status_unknown_gains_marker :
    normaliseStatus "unknown" = "✅ unknown" ∧
    normaliseStatus "unknown" ≠ "unknown" ∧
    normaliseStatus " TBD " = "TBD" ∧
    normaliseStatus " TBD " ≠ " TBD " ∧
    normaliseStatus "✅ now" = "✅ now" :=
  ⟨by decide, by decide, by decide, by decide, by decide⟩

/-- C5 (amended): status normalization prepends the available marker to
EVERY status whose whitespace-stripped, lower-cased text contains an
available-now keyword ("now"/"available"/"yes") and that does not already
carry the marker (already-marked text is returned stripped, not re-marked)
— including "unknown", which contains "now" — and returns every text
containing none of the keyword groups unchanged apart from whitespace
stripping. -/
theorem normalise_status_amended :
    (∀ s : String,
      (hasSub (pyLower (pyStrip s)) "now" ||
       hasSub (pyLower (pyStrip s)) "available" ||
       hasSub (pyLower (pyStrip s)) "yes") = true →
      normaliseStatus s =
        if hasSub (pyStrip s) "✅" then pyStrip s
        else "✅ " ++ pyStrip s) ∧
    (∀ s : String, noStatusKeyword s → normaliseStatus s = pyStrip s) ∧
    normaliseStatus "Yes, in production" = "✅ Yes, in production" ∧
    normaliseStatus "unknown" = "✅ unknown" := by
  refine ⟨?_, ?_, by decide, by decide⟩
  · intro s h
    simp [normaliseStatus, h]
  · intro s h
    obtain ⟨h1, h2, h3, h4, h5, h6, h7⟩ := h
    simp [normaliseStatus, h1, h2, h3, h4, h5, h6, h7]

/-- C5 witness: the amended theorem applied at the keyword-bearing input
"Available in Q3" and at the keyword-free input "TBD". -/
theorem normalise_status_amended_witness :
    ((hasSub (pyLower (pyStrip "Available in Q3")) "now" ||
      hasSub (pyLower (pyStrip "Available in Q3")) "available" ||
      hasSub (pyLower (pyStrip "Available in Q3")) "yes") = true) ∧
    normaliseStatus "Available in Q3" =
      (if hasSub (pyStrip "Available in Q3") "✅"
       then pyStrip "Available in Q3"
       else "✅ " ++ pyStrip "Available in Q3") ∧
    noStatusKeyword "TBD" ∧
    normaliseStatus "TBD" = pyStrip "TBD" :=
  ⟨by decide,
   normalise_status_amended.1 "Available in Q3" (by decide),
   by decide,
   normalise_status_amended.2.1 "TBD" (by decide)⟩

/-- C6: extraction raises exactly when every non-denylisted sheet of the
workbook yields no requirement rows; one productive sheet suffices for
normal return. -/
theorem extraction_error_iff_no_productive_sheet (wb : Workbook) :
    (∃ e, parseExcel wb = Except.error e) ↔
      ∀ p ∈ wb, skipNames.contains (pyLower (pyStrip p.1)) = false →
        parseSheet p.2 = [] := by
  rw [← productiveSheets_eq_nil]
  unfold parseExcel
  cases h : productiveSheets wb with
  | nil => simp
  | cons a rest =>
    obtain ⟨n, reqs⟩ := a
    simp only []
    constructor
    · rintro ⟨e, he⟩
      split at he <;> exact absurd he (by simp)
    · intro hnil
      exact absurd hnil (by simp)

theorem mem_firstSeen : ∀ (l : List String) (a : String),
    a ∈ firstSeen l ↔ a ∈ l := by
  intro l
  induction l using firstSeen.induct with
  | case1 => intro a; rw [firstSeen]
  | case2 x xs ih =>
    intro a
    rw [firstSeen, List.mem_cons, ih a, List.mem_filter, List.mem_cons]
    by_cases hax : a = x <;> simp [hax]

theorem firstSeen_nodup : ∀ l : List String, (firstSeen l).Nodup := by
  intro l
  induction l using firstSeen.induct with
  | case1 => rw [firstSeen]; exact List.nodup_nil
  | case2 x xs ih =>
    rw [firstSeen]
    refine List.nodup_cons.mpr ⟨?_, ih⟩
    rw [mem_firstSeen, List.mem_filter]
    simp

theorem firstSeen_append_one : ∀ (l : List String) (k : String),
    firstSeen (l ++ [k]) =
      if k ∈ l then firstSeen l else firstSeen l ++ [k] := by
  intro l
  induction l using firstSeen.induct with
  | case1 =>
    intro k
    rw [List.nil_append, firstSeen, firstSeen]
    simp [firstSeen]
  | case2 x xs ih =>
    intro k
    rw [List.cons_append, firstSeen, List.filter_append]
    by_cases hkx : k = x
    · subst hkx
      have hf : ([k].filter fun y => y ≠ k) = [] := by simp
      rw [hf, List.append_nil, if_pos (List.mem_cons_self k xs), firstSeen]
    · have hf : ([k].filter fun y => y ≠ x) = [k] := by simp [hkx]
      rw [hf, ih k]
      by_cases hk : k ∈ xs
      · rw [if_pos (by rw [List.mem_filter]; exact ⟨hk, by simp [hkx]⟩),
          if_pos (List.mem_cons_of_mem x hk), firstSeen]
      · rw [if_neg (by rw [List.mem_filter]; exact fun h => hk h.1),
          if_neg (by rw [List.mem_cons]; rintro (h | h)
                     exacts [hkx h, hk h]),
          firstSeen, List.cons_append]

theorem addToGroup_not_mem :
    ∀ (groups : List (String × List Req)) (k : String) (v : Req),
      k ∉ groups.map Prod.fst →
      addToGroup groups k v = groups ++ [(k, [v])] := by
  intro groups
  induction groups with
  | nil => intro k v _; rfl
  | cons g rest ih =>
    intro k v hk
    obtain ⟨d, rs⟩ := g
    simp only [List.map_cons, List.mem_cons] at hk
    push_neg at hk
    rw [addToGroup, if_neg (fun h => hk.1 h.symm), ih k v hk.2,
      List.cons_append]

theorem addToGroup_mem_map :
    ∀ (keys : List String) (F : String → List Req) (k : String) (v : Req),
      keys.Nodup → k ∈ keys →
      addToGroup (keys.map fun d => (d, F d)) k v =
        keys.map fun d => (d, if d = k then F d ++ [v] else F d) := by
  intro keys
  induction keys with
  | nil => intro F k v _ hk; exact absurd hk (List.not_mem_nil k)
  | cons d keys ih =>
    intro F k v hnd hk
    simp only [List.map_cons, addToGroup]
    by_cases hdk : d = k
    · subst hdk
      rw [if_pos rfl]
      have hout : d ∉ keys := (List.nodup_cons.mp hnd).1
      congr 1
      · rw [if_pos rfl]
      · refine (List.map_congr_left fun a ha => ?_).symm
        rw [if_neg fun (h : a = d) => hout (h ▸ ha)]
    · rw [if_neg hdk]
      have hkk : k ∈ keys := by
        rcases List.mem_cons.mp hk with h | h
        · exact absurd h.symm hdk
        · exact h
      rw [ih F k v (List.nodup_cons.mp hnd).2 hkk]
      congr 1
      rw [if_neg hdk]

theorem groupLoop_append : ∀ (l1 l2 : List Req)
    (acc : List (String × List Req)),
    groupLoop (l1 ++ l2) acc = groupLoop l2 (groupLoop l1 acc) := by
  intro l1
  induction l1 with
  | nil => intro l2 acc; rfl
  | cons r l1 ih =>
    intro l2 acc
    rw [List.cons_append, groupLoop, groupLoop, ih]

theorem filter_domKey_eq_nil {rs : List Req} {k : String}
    (hk : k ∉ rs.map domKey) :
    (rs.filter fun r => domKey r = k) = [] := by
  refine List.filter_eq_nil_iff.mpr fun r hr => ?_
  simp only [decide_eq_true_eq]
  exact fun h => hk (List.mem_map.mpr ⟨r, hr, h⟩)

theorem groupLoop_eq_spec : ∀ rs : List Req,
    groupLoop rs [] =
      (firstSeen (rs.map domKey)).map fun d =>
        (d, (rs.filter fun r => domKey r = d).map clearDom) := by
  intro rs
  induction rs using List.reverseRecOn with
  | nil => simp [groupLoop, firstSeen]
  | append_singleton rs r ih =>
    rw [groupLoop_append, ih]
    show addToGroup _ (domKey r) (clearDom r) = _
    rw [List.map_append]
    simp only [List.map_cons, List.map_nil]
    rw [firstSeen_append_one]
    by_cases hk : domKey r ∈ rs.map domKey
    · rw [if_pos hk,
        addToGroup_mem_map _ _ _ _ (firstSeen_nodup _)
          ((mem_firstSeen _ _).mpr hk)]
      refine List.map_congr_left fun d hd => ?_
      rw [List.filter_append, List.map_append]
      by_cases hdk : d = domKey r
      · rw [if_pos hdk]
        have : ([r].filter fun x => domKey x = d) = [r] := by simp [hdk]
        rw [this]
        rfl
      · rw [if_neg hdk]
        have hne : domKey r ≠ d := fun h => hdk h.symm
        have h0 : ([r].filter fun x => domKey x = d) = [] := by simp [hne]
        rw [h0]
        simp
    · rw [if_neg hk,
        addToGroup_not_mem _ _ _
          (by rw [List.map_map]
              simpa using fun h => hk ((mem_firstSeen _ _).mp h)),
        List.map_append]
      congr 1
      · refine List.map_congr_left fun d hd => ?_
        have hd' : d ∈ rs.map domKey := (mem_firstSeen _ _).mp hd
        have hdk : domKey r ≠ d := fun h => hk (h ▸ hd')
        rw [List.filter_append, List.map_append]
        have h0 : ([r].filter fun x => domKey x = d) = [] := by simp [hdk]
        rw [h0]
        simp
      · rw [List.map_cons, List.map_nil, List.filter_append,
          filter_domKey_eq_nil hk]
        have : ([r].filter fun x => domKey x = domKey r) = [r] := by simp
        rw [this, List.nil_append]
        rfl

theorem getD_mem_of_lt {l : List Nat} {n : Nat} (h : n < l.length) :
    l.getD n 0 ∈ l := by
  rw [List.getD_eq_getElem?_getD, List.getElem?_eq_getElem h]
  exact List.getElem_mem h

theorem getElem?_eq_some_getD {l : List Nat} {n : Nat} (h : n < l.length) :
    l[n]? = some (l.getD n 0) := by
  rw [List.getD_eq_getElem?_getD, List.getElem?_eq_getElem h]
  rfl

theorem lookup_val_mem (l : List (String × Int)) (k : String) (v : Int)
    (h : l.lookup k = some v) : ∃ k', (k', v) ∈ l := by
  induction l with
  | nil => simp [List.lookup] at h
  | cons p rest ih =>
    rw [List.lookup] at h
    split at h
    · exact ⟨p.1, by simp [← Option.some_inj.mp h]⟩
    · obtain ⟨k', hk'⟩ := ih h
      exact ⟨k', List.mem_cons_of_mem _ hk'⟩

theorem mergeDict_nonneg (base ovr : List (String × Int))
    (hb : ∀ p ∈ base, 0 ≤ p.2) (ho : ∀ p ∈ ovr, 0 ≤ p.2) :
    ∀ p ∈ mergeDict base ovr, 0 ≤ p.2 := by
  intro p hp
  rcases List.mem_append.mp hp with h | h
  · obtain ⟨q, hq, rfl⟩ := List.mem_map.mp h
    cases hl : ovr.lookup q.1 with
    | none => simpa [hl] using hb q hq
    | some v =>
      obtain ⟨k', hk'⟩ := lookup_val_mem _ _ _ hl
      simpa [hl] using ho _ hk'
  · exact ho p (List.mem_filter.mp h).1

theorem layoutMapAux_total (layouts : List Nat) (hl : layouts ≠ []) :
    ∀ l : List (String × Int), (∀ p ∈ l, 0 ≤ p.2) →
      layoutMapAux layouts l =
        some (l.map fun p =>
          (p.1, if p.2 < (layouts.length : Int)
                then layouts.getD p.2.toNat 0
                else layouts.getD 0 0)) := by
  have h0 : 0 < layouts.length := List.length_pos.mpr hl
  have hfb : pyGet layouts 0 = some (layouts.getD 0 0) := by
    rw [pyGet, if_pos (le_refl (0 : Int))]
    exact getElem?_eq_some_getD h0
  intro l
  induction l with
  | nil => intro _; rfl
  | cons p rest ih =>
    intro hnn
    have hp0 : 0 ≤ p.2 := hnn p (List.mem_cons_self _ _)
    have ihr := ih fun x hx => hnn x (List.mem_cons_of_mem _ hx)
    by_cases h : p.2 < (layouts.length : Int)
    · have hlt : p.2.toNat < layouts.length := by omega
      have hg : pyGet layouts p.2 = some (layouts.getD p.2.toNat 0) := by
        rw [pyGet, if_pos hp0]
        exact getElem?_eq_some_getD hlt
      simp only [layoutMapAux, ihr, if_pos h, hg, List.map_cons]
    · simp only [layoutMapAux, ihr, if_neg h, hfb, List.map_cons]

/-- C8 (counterexample): an override index of −4 on a two-layout template
passes the `idx < len(layouts)` guard (it is not substituted by 0) and the
subscript `layouts[-4]` then raises `IndexError`: layout resolution fails
hard instead of falling back. -/
theorem layout_negative_index_crash :
    layoutMap [5, 6] [("title_center", -4)] = none := by rfl

/-- C8 (amended): for override maps with non-negative indices — and a
template with at least one layout — layout resolution never fails: each
role's resolved index replaces its default, an index that is out of range
is substituted by index 0 (with a warning), and every role of the returned
map is bound to some layout of the template. A negative override index
below −len instead raises `IndexError`. -/
theorem layout_resolution_amended (layouts : List Nat)
    (ovr : List (String × Int)) (hl : layouts ≠ [])
    (hnn : ∀ p ∈ ovr, 0 ≤ p.2) :
    ∃ m, layoutMap layouts ovr = some m ∧
      m = (mergeDict layoutDefaults ovr).map
        (fun p => (p.1, if p.2 < (layouts.length : Int)
                        then layouts.getD p.2.toNat 0
                        else layouts.getD 0 0)) ∧
      ∀ q ∈ m, q.2 ∈ layouts := by
  have h0 : 0 < layouts.length := List.length_pos.mpr hl
  have hmn : ∀ p ∈ mergeDict layoutDefaults ovr, 0 ≤ p.2 :=
    mergeDict_nonneg _ _ (by intro p hp; fin_cases hp <;> simp) hnn
  refine ⟨_, layoutMapAux_total layouts hl _ hmn, rfl, ?_⟩
  intro q hq
  obtain ⟨p, hp, rfl⟩ := List.mem_map.mp hq
  show (if p.2 < (layouts.length : Int) then layouts.getD p.2.toNat 0
        else layouts.getD 0 0) ∈ layouts
  by_cases h : p.2 < (layouts.length : Int)
  · have hlt : p.2.toNat < layouts.length := by
      have := hmn p hp; omega
    rw [if_pos h]; exact getD_mem_of_lt hlt
  · rw [if_neg h]; exact getD_mem_of_lt h0

/-- C8 witness: a two-layout template with one out-of-range non-negative
override and one extra role. -/
theorem layout_resolution_amended_witness :
    (([5, 6] : List Nat) ≠ []) ∧
    (∀ p ∈ [(("title_center" : String), (99 : Int)), ("extra", 1)],
      0 ≤ p.2) ∧
    (∃ m, layoutMap [5, 6] [("title_center", 99), ("extra", 1)] = some m ∧
      m = (mergeDict layoutDefaults
            [("title_center", 99), ("extra", 1)]).map
        (fun p => (p.1, if p.2 < (([5, 6] : List Nat).length : Int)
                        then ([5, 6] : List Nat).getD p.2.toNat 0
                        else ([5, 6] : List Nat).getD 0 0)) ∧
      ∀ q ∈ m, q.2 ∈ ([5, 6] : List Nat)) :=
  ⟨by decide, by decide,
   layout_resolution_amended [5, 6] [("title_center", 99), ("extra", 1)]
     (by decide) (by decide)⟩

theorem renderSlide_ok (fs : Fs) (SL : String → Nat) (prs : Prs)
    (spec : Spec) (h : validType (spec.type.getD "bullets") = true) :
    ∃ sl, slideOf fs SL spec = some sl ∧
      renderSlide fs SL prs spec =
        ({ slides := prs.slides ++ [sl] }, Except.ok sl) := by
  unfold validType at h
  cases hf : _RENDERERS.lookup (spec.type.getD "bullets") with
  | none => rw [hf] at h; simp at h
  | some f =>
    refine ⟨f fs SL spec, ?_, ?_⟩
    · unfold slideOf; rw [hf]; rfl
    · simp only [renderSlide, hf]

theorem length_filterMap_of_isSome {α β : Type} (f : α → Option β) :
    ∀ l : List α, (∀ a ∈ l, (f a).isSome = true) →
      (l.filterMap f).length = l.length := by
  intro l
  induction l with
  | nil => intro _; rfl
  | cons a l ih =>
    intro h
    obtain ⟨b, hb⟩ :=
      Option.isSome_iff_exists.mp (h a (List.mem_cons_self a l))
    rw [List.filterMap_cons, hb]
    simp [ih fun x hx => h x (List.mem_cons_of_mem _ hx)]

theorem renderAll_ok_aux (fs : Fs) (SL : String → Nat) :
    ∀ (specs : List Spec) (prs : Prs),
      (∀ s ∈ specs, validType (s.type.getD "bullets") = true) →
      renderAll fs SL prs specs =
        ({ slides := prs.slides ++ specs.filterMap (slideOf fs SL) },
         Except.ok (specs.filterMap (slideOf fs SL))) := by
  intro specs
  induction specs with
  | nil => intro prs _; simp [renderAll]
  | cons s rest ih =>
    intro prs h
    obtain ⟨sl, hsl, hrs⟩ :=
      renderSlide_ok fs SL prs s (h s (List.mem_cons_self s rest))
    have ih' := ih { slides := prs.slides ++ [sl] }
      (fun x hx => h x (List.mem_cons_of_mem _ hx))
    simp only [renderAll, hrs, ih', List.filterMap_cons, hsl]
    simp

theorem renderAll_err_aux (fs : Fs) (SL : String → Nat) :
    ∀ (specs : List Spec) (k : Nat) (sBad : Spec) (prs : Prs),
      specs.get? k = some sBad →
      validType (sBad.type.getD "bullets") = false →
      (∀ s ∈ specs.take k, validType (s.type.getD "bullets") = true) →
      renderAll fs SL prs specs =
        ({ slides := prs.slides ++ (specs.take k).filterMap (slideOf fs SL) },
         Except.error (.unknownType (sBad.type.getD "bullets")
           (_RENDERERS.map Prod.fst))) ∧
      ((specs.take k).filterMap (slideOf fs SL)).length = k := by
  intro specs
  induction specs with
  | nil => intro k sBad prs hbad _ _; simp at hbad
  | cons s rest ih =>
    intro k sBad prs hbad hbadTy hgood
    cases k with
    | zero =>
      have hs : s = sBad := by simpa using hbad
      subst hs
      have hlk : _RENDERERS.lookup (s.type.getD "bullets") = none := by
        cases hf : _RENDERERS.lookup (s.type.getD "bullets") with
        | none => rfl
        | some f =>
          unfold validType at hbadTy
          rw [hf] at hbadTy
          simp at hbadTy
      refine ⟨?_, rfl⟩
      simp [renderAll, renderSlide, hlk]
    | succ k =>
      have hsv : validType (s.type.getD "bullets") = true :=
        hgood s (by simp [List.take_succ_cons])
      obtain ⟨sl, hsl, hrs⟩ := renderSlide_ok fs SL prs s hsv
      obtain ⟨ih1, ih2⟩ := ih k sBad { slides := prs.slides ++ [sl] }
        (by simpa using hbad) hbadTy
        (fun x hx => hgood x (by
          simp only [List.take_succ_cons, List.mem_cons]
          exact Or.inr hx))
      constructor
      · simp only [renderAll, hrs, ih1, List.take_succ_cons,
          List.filterMap_cons, hsl]
        simp
      · simp only [List.take_succ_cons, List.filterMap_cons, hsl,
          List.length_cons, ih2]

/-- C1: for a spec list whose every `type` is recognized, `render_all`
appends exactly one slide per spec to the presentation and returns the
slide handles in input order; the recognized tags are the sixteen fixed
ones. -/
theorem render_all_one_slide_per_spec (fs : Fs) (SL : String → Nat)
    (prs : Prs) (specs : List Spec)
    (h : ∀ s ∈ specs, validType (s.type.getD "bullets") = true) :
    renderAll fs SL prs specs =
      ({ slides := prs.slides ++ specs.filterMap (slideOf fs SL) },
       Except.ok (specs.filterMap (slideOf fs SL))) ∧
    (specs.filterMap (slideOf fs SL)).length = specs.length ∧
    _RENDERERS.map Prod.fst =
      ["title", "section", "bullets", "table", "two_column", "text",
       "image", "comparison", "closing", "hero", "card_grid",
       "icon_bullets", "split_panel", "two_image", "value_props", "cta"] := by
  refine ⟨?_,
    length_filterMap_of_isSome _ _ (fun s hs => by
      obtain ⟨sl, hsl, _⟩ := renderSlide_ok fs SL prs s (h s hs)
      simp [hsl]), rfl⟩
  exact renderAll_ok_aux fs SL specs prs h

/-- C1 witness: two recognized specs yield two slides, appended in order. -/
theorem render_all_one_slide_per_spec_witness :
    (∀ s ∈ [({ type := some "title", title := some "Hi" } : Spec),
            { type := some "closing" }],
       validType (s.type.getD "bullets") = true) ∧
    (renderAll [] (fun _ => 7) { slides := [] }
        [({ type := some "title", title := some "Hi" } : Spec),
         { type := some "closing" }] =
      ({ slides := ([({ type := some "title", title := some "Hi" } : Spec),
                     { type := some "closing" }].filterMap
                      (slideOf [] (fun _ => 7))) },
       Except.ok ([({ type := some "title", title := some "Hi" } : Spec),
                   { type := some "closing" }].filterMap
                    (slideOf [] (fun _ => 7)))) ∧
     ([({ type := some "title", title := some "Hi" } : Spec),
       { type := some "closing" }].filterMap
         (slideOf [] (fun _ => 7))).length = 2 ∧
     _RENDERERS.map Prod.fst =
       ["title", "section", "bullets", "table", "two_column", "text",
        "image", "comparison", "closing", "hero", "card_grid",
        "icon_bullets", "split_panel", "two_image", "value_props", "cta"]) :=
  ⟨by decide,
   render_all_one_slide_per_spec [] (fun _ => 7) { slides := [] } _
     (by decide)⟩

/-- C2: with the first unrecognized `type` at position `k`, `render_all`
propagates the unknown-type error — carrying the offending value and the
full valid-tag list — and exactly the `k` earlier slides have been
appended when it raises. -/
theorem render_all_stops_at_first_unknown (fs : Fs) (SL : String → Nat)
    (prs : Prs) (specs : List Spec) (k : Nat) (sBad : Spec)
    (hbad : specs.get? k = some sBad)
    (hbadTy : validType (sBad.type.getD "bullets") = false)
    (hgood : ∀ s ∈ specs.take k, validType (s.type.getD "bullets") = true) :
    renderAll fs SL prs specs =
      ({ slides := prs.slides ++ (specs.take k).filterMap (slideOf fs SL) },
       Except.error (.unknownType (sBad.type.getD "bullets")
         (_RENDERERS.map Prod.fst))) ∧
    ((specs.take k).filterMap (slideOf fs SL)).length = k :=
  renderAll_err_aux fs SL specs k sBad prs hbad hbadTy hgood

/-- C2 witness: the bad spec at position 1; exactly one slide rendered. -/
theorem render_all_stops_at_first_unknown_witness :
    ([({ type := some "title" } : Spec),
      { type := some "nope" }].get? 1 = some { type := some "nope" }) ∧
    (validType ((({ type := some "nope" } : Spec)).type.getD "bullets")
      = false) ∧
    (renderAll [] (fun _ => 3) { slides := [] }
        [({ type := some "title" } : Spec), { type := some "nope" }] =
      ({ slides := ([({ type := some "title" } : Spec)].filterMap
                      (slideOf [] (fun _ => 3))) },
       Except.error (.unknownType "nope" (_RENDERERS.map Prod.fst))) ∧
     ([({ type := some "title" } : Spec)].filterMap
        (slideOf [] (fun _ => 3))).length = 1) := by
  refine ⟨by decide, by decide, ?_⟩
  have := render_all_stops_at_first_unknown [] (fun _ => 3) { slides := [] }
    [({ type := some "title" } : Spec), { type := some "nope" }] 1
    { type := some "nope" } (by decide) (by decide) (by decide)
  simpa using this

/-- C9: an `image` spec whose path names no existing file renders a slide
carrying the title and, when given, the caption, with no picture shape and
no error; the shared image helper likewise returns nothing (no error) for
a missing path. -/
theorem render_image_missing_file (fs : Fs) (SL : String → Nat) (prs : Prs)
    (spec : Spec) (h1 : spec.type = some "image")
    (h2 : fs.contains (spec.imagePath.getD "") = false) :
    ∃ sl, renderSlide fs SL prs spec =
        ({ slides := prs.slides ++ [sl] }, Except.ok sl) ∧
      sl.phs = [(0, spec.title.getD "")] ∧
      sl.shapes = (if spec.caption.getD "" ≠ ""
                   then [Shape.tx [spec.caption.getD ""]] else []) ∧
      (∀ path, Shape.pic path ∉ sl.shapes) ∧
      addImg fs (spec.imagePath.getD "") = none := by
  have hlk : _RENDERERS.lookup "image" = some render_image := by rfl
  have hmem : spec.imagePath.getD "" ∉ fs := by simpa using h2
  have hsl : render_image fs SL spec =
      { layout := SL "title_content", phs := [(0, spec.title.getD "")],
        shapes := if spec.caption.getD "" ≠ ""
                  then [Shape.tx [spec.caption.getD ""]] else [] } := by
    by_cases hc : spec.caption.getD "" = "" <;>
      simp [render_image, setPh, txbS, picS, hmem, hc]
  refine ⟨render_image fs SL spec, ?_, ?_, ?_, ?_, ?_⟩
  · simp only [renderSlide, h1, Option.getD_some, hlk]
  · rw [hsl]
  · rw [hsl]
  · intro path
    rw [hsl]
    by_cases hc : spec.caption.getD "" = "" <;> simp [hc]
  · simp [addImg, hmem]

/-- C9 witness: a missing image path with a caption. -/
theorem render_image_missing_file_witness :
    (({ type := some "image", title := some "T", caption := some "C",
        imagePath := some "shot.png" } : Spec).type = some "image") ∧
    (([] : Fs).contains
      (({ type := some "image", title := some "T", caption := some "C",
          imagePath := some "shot.png" } : Spec).imagePath.getD "")
        = false) ∧
    (∃ sl, renderSlide [] (fun _ => 2) { slides := [] }
        { type := some "image", title := some "T", caption := some "C",
          imagePath := some "shot.png" } =
        ({ slides := [sl] }, Except.ok sl) ∧
      sl.phs = [(0, "T")] ∧
      sl.shapes = [Shape.tx ["C"]] ∧
      (∀ path, Shape.pic path ∉ sl.shapes) ∧
      addImg [] "shot.png" = none) := by
  refine ⟨rfl, by decide, ?_⟩
  have := render_image_missing_file [] (fun _ => 2) { slides := [] }
    { type := some "image", title := some "T", caption := some "C",
      imagePath := some "shot.png" } rfl (by decide)
  simpa using this

/-- C10: a spec with no `type` key is dispatched as a `bullets` slide (the
discriminator defaults to "bullets"), not rejected. -/
theorem render_slide_defaults_to_bullets (fs : Fs) (SL : String → Nat)
    (prs : Prs) (spec : Spec) (h : spec.type = none) :
    renderSlide fs SL prs spec =
      ({ slides := prs.slides ++ [render_bullets fs SL spec] },
       Except.ok (render_bullets fs SL spec)) := by
  have hlk : _RENDERERS.lookup "bullets" = some render_bullets := by rfl
  simp only [renderSlide, h, Option.getD_none, hlk]

/-- C7 (counterexample): a single productive sheet where one row carries
the domain value "A" and another carries none produces TWO domains — the
second named by the synthetic key "Uncategorized", which is not a domain
value carried by any row — refuting "one domain per distinct domain value,
named by that value". -/
theorem grouping_uncategorized_counterexample :
    parseExcel wbMixed =
      Except.ok
        [{ name := "A", description := "1 requirements",
           reqs := [{ requirement := "R1", description := "d1",
                      status := "✅ Yes", signal := "TRACE",
                      domainVal := none }] },
         { name := "Uncategorized", description := "1 requirements",
           reqs := [reqNoDom] }] ∧
    productiveSheets wbMixed = [("Sheet1", reqsMixed)] ∧
    reqsMixed.filterMap (fun r => r.domainVal) = ["A"] ∧
    "Uncategorized" ∉ reqsMixed.filterMap (fun r => r.domainVal) :=
  ⟨rfl, rfl, rfl, by decide⟩

/-- C7 (amended): with exactly one productive sheet and at least one
domain-valued row, extraction groups the rows by domain value, rows
without a value going to the synthetic "Uncategorized" key: one domain per
distinct grouping key, named by that key, ordered by first appearance,
each holding exactly its matching rows in original order (domain key
removed) and described by its row count; in every other case each
productive sheet becomes one ordinal-named domain. -/
theorem parse_excel_grouping_amended (wb : Workbook) (sheetName : String)
    (reqs : List Req)
    (h1 : productiveSheets wb = [(sheetName, reqs)])
    (h2 : reqs.any (fun r => r.domainVal.isSome) = true) :
    parseExcel wb = Except.ok (groupedDomains reqs) ∧
    groupedDomains reqs =
      (firstSeen (reqs.map domKey)).map (fun d =>
        { name := d,
          description :=
            toString
                ((reqs.filter fun r => domKey r = d).map clearDom).length
              ++ " requirements",
          reqs := (reqs.filter fun r => domKey r = d).map clearDom }) ∧
    (∀ (wb2 : Workbook) (n2 : String) (reqs2 : List Req)
        (rest2 : List (String × List Req)),
      productiveSheets wb2 = (n2, reqs2) :: rest2 →
      (rest2.isEmpty && reqs2.any (fun r => r.domainVal.isSome)) = false →
      parseExcel wb2 = Except.ok (multiDomains ((n2, reqs2) :: rest2))) := by
  refine ⟨?_, ?_, ?_⟩
  · unfold parseExcel
    rw [h1]
    simp [h2]
  · unfold groupedDomains
    rw [groupLoop_eq_spec, List.map_map]
    rfl
  · intro wb2 n2 reqs2 rest2 hp hcond
    unfold parseExcel
    rw [hp]
    simp only [hcond]
    rw [if_neg (by simp)]

/-- C7 witness: the amended theorem applied to the mixed workbook. -/
theorem parse_excel_grouping_amended_witness :
    (productiveSheets wbMixed = [("Sheet1", reqsMixed)]) ∧
    (reqsMixed.any (fun r => r.domainVal.isSome) = true) ∧
    parseExcel wbMixed = Except.ok (groupedDomains reqsMixed) :=
  ⟨by decide, by decide,
   (parse_excel_grouping_amended wbMixed "Sheet1" reqsMixed (by decide)
     (by decide)).1⟩

/-- C10 witness: a typeless spec renders as a bullets slide. -/
theorem render_slide_defaults_to_bullets_witness :
    (({ title := some "T", bullets := some ["a"] } : Spec).type = none) ∧
    renderSlide [] (fun _ => 4) { slides := [] }
        { title := some "T", bullets := some ["a"] } =
      ({ slides := [render_bullets [] (fun _ => 4)
                      { title := some "T", bullets := some ["a"] }] },
       Except.ok (render_bullets [] (fun _ => 4)
                    { title := some "T", bullets := some ["a"] })) :=
  ⟨rfl, render_slide_defaults_to_bullets [] (fun _ => 4) { slides := [] }
    { title := some "T", bullets := some ["a"] } rfl⟩

end DtPpt
